import Mathlib

/-!
Shallow embedding of the route-animator Route Timeline Engine.

The definitions below are translated from the TypeScript sources:
  src/src/store/routeStore.ts      (Route Model + Playback Engine, zustand store)
  src/src/hooks/useAnimation.ts    (Frame Sampler: smoothPath, getAnimationFrame)
  src/src/hooks/useVideoExport.ts  (generateArcPath)

Modelling conventions:
* JavaScript numbers are modelled as exact rationals (`ℚ`) except in
  `generateArcPath`, where the transcendental functions `Math.sin` / `Math.sqrt`
  force the model into the reals (`ℝ`).
* `generateId()` (a random string) is determinized as a fresh-id counter
  (`nextId : ℕ`) threaded through the store, exactly one increment per call,
  in source order of the calls.
* `new Date()` is modelled by an explicit `now : ℕ` argument to every
  operation that writes `updatedAt` or `createdAt`.
* JavaScript `undefined` is reachable for waypoint fields: a
  `reorderWaypoints` call whose `fromIndex` is out of range splices
  `undefined` into the waypoint array, and the subsequent
  `{...wp, order: index}` spread yields an object whose `id`,
  `coordinates` and `label` are `undefined`.  Hence `Waypoint.id`,
  `Waypoint.coordinates` and `Waypoint.label` are `Option`-valued, and
  segment endpoint ids and path points are `Option`-valued as well.
  JavaScript strict equality `undefined === undefined` is `true`, matching
  `Option` equality at `none`.
* The third-party turf.js geometry primitives (`bezierSpline`, `length`,
  `along`, `lineSlice`) are not part of this repository; the Frame Sampler
  is parametrized over them as opaque total functions.
-/

namespace RouteAnimator

/-- GeoJSON coordinate pair `[longitude, latitude]`, from `src/types`
(`type Coordinates = [number, number]`). -/
abbrev Coord : Type := ℚ × ℚ

/-- A possibly-`undefined` coordinate (JavaScript value). -/
abbrev OptCoord : Type := Option Coord

/-- `type TransportMode = 'car' | 'motorcycle' | 'train' | 'plane'` from `src/types`. -/
inductive TransportMode : Type
  | car
  | motorcycle
  | train
  | plane
deriving DecidableEq, Repr

/-- `interface Waypoint` from `src/types`.  The `id`, `coordinates` and
`label` fields are `Option`-valued because a corrupt waypoint
(`{...undefined, order: index}`, producible by `reorderWaypoints` with an
out-of-range `fromIndex`) has them `undefined`. -/
structure Waypoint : Type where
  id : Option ℕ
  coordinates : Option Coord
  label : Option String
  order : ℕ
deriving DecidableEq, Repr

/-- `interface RouteSegment` from `src/types` (the optional `distance` /
`duration` fields, never written by the store, are carried verbatim). -/
structure RouteSegment : Type where
  id : ℕ
  startWaypointId : Option ℕ
  endWaypointId : Option ℕ
  transportMode : TransportMode
  path : List OptCoord
  distance : Option ℚ := none
  duration : Option ℚ := none
deriving DecidableEq, Repr

/-- `interface Route` from `src/types`; `Date` fields modelled as `ℕ`. -/
structure Route : Type where
  id : ℕ
  name : String
  waypoints : List Waypoint
  segments : List RouteSegment
  createdAt : ℕ
  updatedAt : ℕ
deriving DecidableEq, Repr

/-- The animation slice of the store as actually implemented in
`routeStore.ts` (the store uses `speed`, not the `duration` field declared
in the `AnimationState` interface).  `currentSegmentIndex` is an integer:
`Math.min(Math.floor(progress * segmentCount), segmentCount - 1)` can be
negative for negative progress. -/
structure AnimationState : Type where
  isPlaying : Bool
  isPaused : Bool
  currentProgress : ℚ
  currentSegmentIndex : ℤ
  segmentProgress : ℚ
  speed : ℚ
deriving DecidableEq, Repr

/-- The slice of the zustand store touched by the modelled actions
(map configuration, UI state and export configuration are never read or
written by them and are omitted).  `nextId` determinizes `generateId()`. -/
structure RouteStore : Type where
  route : Option Route
  selectedWaypointId : Option ℕ
  selectedSegmentId : Option ℕ
  animation : AnimationState
  nextId : ℕ
deriving DecidableEq, Repr

/-- JavaScript `Math.trunc` on a rational (rounding toward zero); the `%`
operator computes `a - b * trunc(a / b)`. -/
def jsTrunc (q : ℚ) : ℤ :=
  if 0 ≤ q then ⌊q⌋ else ⌈q⌉

/-- JavaScript `q % 1`. -/
def jsRem1 (q : ℚ) : ℚ :=
  q - (jsTrunc q : ℚ)

/-- The animation reset object spread into `set` by every structural edit
(`addWaypoint` / `removeWaypoint` / `reorderWaypoints`): playback stops and
all progress fields return to zero, `speed` is preserved. -/
def resetAnimation (a : AnimationState) : AnimationState :=
  { a with
    isPlaying := false
    isPaused := false
    currentProgress := 0
    currentSegmentIndex := 0
    segmentProgress := 0 }

/-- `createRoute(name)` from `routeStore.ts`: replaces the route with a
fresh empty one; the other store slices (in particular `animation`) are
left as they are. -/
def createRoute (name : String) (now : ℕ) (s : RouteStore) : RouteStore :=
  { s with
    route := some
      { id := s.nextId
        name := name
        waypoints := []
        segments := []
        createdAt := now
        updatedAt := now }
    nextId := s.nextId + 1 }

/-- `addWaypoint(coordinates, label)` from `routeStore.ts`. -/
def addWaypoint (coordinates : Coord) (label : Option String) (now : ℕ)
    (s : RouteStore) : RouteStore :=
  match s.route with
  | none => s
  | some r =>
    let newWaypoint : Waypoint :=
      { id := some s.nextId
        coordinates := some coordinates
        label := label
        order := r.waypoints.length }
    let updatedWaypoints := r.waypoints ++ [newWaypoint]
    match r.waypoints.getLast? with
    | none =>
      { s with
        route := some
          { r with
            waypoints := updatedWaypoints
            segments := r.segments
            updatedAt := now }
        animation := resetAnimation s.animation
        nextId := s.nextId + 1 }
    | some previousWaypoint =>
      let newSegment : RouteSegment :=
        { id := s.nextId + 1
          startWaypointId := previousWaypoint.id
          endWaypointId := newWaypoint.id
          transportMode := TransportMode.car
          path := [previousWaypoint.coordinates, some coordinates] }
      { s with
        route := some
          { r with
            waypoints := updatedWaypoints
            segments := r.segments ++ [newSegment]
            updatedAt := now }
        animation := resetAnimation s.animation
        nextId := s.nextId + 2 }

/-- One iteration of the segment-rebuild loop in `removeWaypoint`: reuse an
existing segment addressing exactly this ordered pair, else synthesize a
straight-line segment, inheriting the transport mode from an old segment
ending at the pair's start (`prevSegment`) or, failing that, starting at
the pair's end (`nextSegment`), with default `'car'`. -/
def removeStep (oldSegs : List RouteSegment) (p : Waypoint × Waypoint) (n : ℕ) :
    RouteSegment × ℕ :=
  match oldSegs.find? (fun seg =>
      decide (seg.startWaypointId = p.1.id ∧ seg.endWaypointId = p.2.id)) with
  | some existingSegment => (existingSegment, n)
  | none =>
    let prevSegment := oldSegs.find? (fun seg => decide (seg.endWaypointId = p.1.id))
    let nextSegment := oldSegs.find? (fun seg => decide (seg.startWaypointId = p.2.id))
    let inheritedMode :=
      (prevSegment.map RouteSegment.transportMode).getD
        ((nextSegment.map RouteSegment.transportMode).getD TransportMode.car)
    ({ id := n
       startWaypointId := p.1.id
       endWaypointId := p.2.id
       transportMode := inheritedMode
       path := [p.1.coordinates, p.2.coordinates] }, n + 1)

/-- One iteration of the segment-rebuild loop in `reorderWaypoints`:
matches an existing segment by endpoint pair in either direction and always
pushes a freshly built object addressing the pair in the new order. -/
def reorderStep (oldSegs : List RouteSegment) (p : Waypoint × Waypoint) (n : ℕ) :
    RouteSegment × ℕ :=
  match oldSegs.find? (fun seg =>
      decide ((seg.startWaypointId = p.1.id ∧ seg.endWaypointId = p.2.id) ∨
              (seg.startWaypointId = p.2.id ∧ seg.endWaypointId = p.1.id))) with
  | some existingSegment =>
    ({ id := existingSegment.id
       startWaypointId := p.1.id
       endWaypointId := p.2.id
       transportMode := existingSegment.transportMode
       path := existingSegment.path }, n)
  | none =>
    ({ id := n
       startWaypointId := p.1.id
       endWaypointId := p.2.id
       transportMode := TransportMode.car
       path := [p.1.coordinates, p.2.coordinates] }, n + 1)

/-- The `for (let i = 0; i < updatedWaypoints.length - 1; i++)` rebuild
loop, abstracted over the per-pair body; threads the fresh-id counter. -/
def buildPairs (step : Waypoint × Waypoint → ℕ → RouteSegment × ℕ) :
    List (Waypoint × Waypoint) → ℕ → List RouteSegment × ℕ
  | [], n => ([], n)
  | p :: rest, n =>
    let first := step p n
    let later := buildPairs step rest first.2
    (first.1 :: later.1, later.2)

/-- The list of consecutive waypoint pairs `(wps[i], wps[i+1])`. -/
def consecutivePairs (wps : List Waypoint) : List (Waypoint × Waypoint) :=
  wps.zip wps.tail

/-- `removeWaypoint(id)` from `routeStore.ts`. -/
def removeWaypoint (wid : ℕ) (now : ℕ) (s : RouteStore) : RouteStore :=
  match s.route with
  | none => s
  | some r =>
    if r.waypoints.all (fun wp => decide (¬ wp.id = some wid)) then s
    else
      let updatedWaypoints :=
        ((r.waypoints.filter (fun wp => decide (¬ wp.id = some wid))).enum.map
          (fun iw => { iw.2 with order := iw.1 }))
      let rebuilt :=
        buildPairs (removeStep r.segments) (consecutivePairs updatedWaypoints) s.nextId
      { s with
        route := some
          { r with
            waypoints := updatedWaypoints
            segments := rebuilt.1
            updatedAt := now }
        selectedWaypointId :=
          if s.selectedWaypointId = some wid then none else s.selectedWaypointId
        animation := resetAnimation s.animation
        nextId := rebuilt.2 }

/-- The corrupt waypoint produced by `{...undefined, order: index}`. -/
def undefinedWaypoint (order : ℕ) : Waypoint :=
  { id := none, coordinates := none, label := none, order := order }

/-- `reorderWaypoints(fromIndex, toIndex)` from `routeStore.ts`.  The two
`splice` calls are modelled exactly: an out-of-range `fromIndex` removes
nothing and inserts JavaScript `undefined`, which the reindexing spread
turns into a corrupt waypoint; `toIndex` past the end inserts at the end. -/
def reorderWaypoints (fromIndex toIndex : ℕ) (now : ℕ) (s : RouteStore) : RouteStore :=
  match s.route with
  | none => s
  | some r =>
    let removed : Option Waypoint := r.waypoints[fromIndex]?
    let afterRemove : List (Option Waypoint) :=
      (r.waypoints.eraseIdx fromIndex).map some
    let spliced : List (Option Waypoint) :=
      afterRemove.take toIndex ++ [removed] ++ afterRemove.drop toIndex
    let updatedWaypoints : List Waypoint :=
      spliced.enum.map (fun iw =>
        match iw.2 with
        | some wp => { wp with order := iw.1 }
        | none => undefinedWaypoint iw.1)
    let rebuilt :=
      buildPairs (reorderStep r.segments) (consecutivePairs updatedWaypoints) s.nextId
    { s with
      route := some
        { r with
          waypoints := updatedWaypoints
          segments := rebuilt.1
          updatedAt := now }
      animation := resetAnimation s.animation
      nextId := rebuilt.2 }

/-- `updateSegmentTransport(segmentId, mode)` from `routeStore.ts`. -/
def updateSegmentTransport (segmentId : ℕ) (mode : TransportMode) (now : ℕ)
    (s : RouteStore) : RouteStore :=
  match s.route with
  | none => s
  | some r =>
    { s with
      route := some
        { r with
          segments := r.segments.map (fun seg =>
            if seg.id = segmentId then { seg with transportMode := mode } else seg)
          updatedAt := now } }

/-- `updateSegmentPath(segmentId, path)` from `routeStore.ts`. -/
def updateSegmentPath (segmentId : ℕ) (path : List OptCoord) (now : ℕ)
    (s : RouteStore) : RouteStore :=
  match s.route with
  | none => s
  | some r =>
    { s with
      route := some
        { r with
          segments := r.segments.map (fun seg =>
            if seg.id = segmentId then { seg with path := path } else seg)
          updatedAt := now } }

/-- `playAnimation()` from `routeStore.ts`. -/
def playAnimation (s : RouteStore) : RouteStore :=
  { s with animation := { s.animation with isPlaying := true, isPaused := false } }

/-- `pauseAnimation()` from `routeStore.ts`. -/
def pauseAnimation (s : RouteStore) : RouteStore :=
  { s with animation := { s.animation with isPlaying := false, isPaused := true } }

/-- `stopAnimation()` from `routeStore.ts`. -/
def stopAnimation (s : RouteStore) : RouteStore :=
  { s with animation := resetAnimation s.animation }

/-- `setAnimationProgress(progress)` from `routeStore.ts` (scrub). -/
def setAnimationProgress (progress : ℚ) (s : RouteStore) : RouteStore :=
  match s.route with
  | none => s
  | some r =>
    if r.segments.length = 0 then s
    else
      let segmentCount : ℕ := r.segments.length
      let segmentIndex : ℤ :=
        min ⌊progress * (segmentCount : ℚ)⌋ ((segmentCount : ℤ) - 1)
      let segProgress : ℚ := jsRem1 (progress * (segmentCount : ℚ))
      { s with
        animation :=
          { s.animation with
            currentProgress := progress
            currentSegmentIndex := segmentIndex
            segmentProgress := segProgress } }

/-- `updateAnimationFrame(deltaTime)` from `routeStore.ts` (tick).  The
hard-coded base advance is `0.05` per second of wall time. -/
def updateAnimationFrame (deltaTime : ℚ) (s : RouteStore) : RouteStore :=
  match s.route with
  | none => s
  | some r =>
    if s.animation.isPlaying = false then s
    else if r.segments.length = 0 then s
    else
      let progressIncrement := deltaTime / 1000 * (0.05 : ℚ) * s.animation.speed
      let newProgress := min (s.animation.currentProgress + progressIncrement) 1
      if 1 ≤ newProgress then
        { s with
          animation :=
            { s.animation with
              isPlaying := false
              isPaused := false
              currentProgress := 0
              currentSegmentIndex := 0
              segmentProgress := 0 } }
      else setAnimationProgress newProgress s

/-- The frame record returned by `getAnimationFrame` in `useAnimation.ts`. -/
structure AnimationFrame : Type where
  markerPosition : Coord
  currentSegmentIndex : ℤ
  drawnPath : List OptCoord
  progress : ℚ
deriving DecidableEq, Repr

/-- `smoothPath(coordinates, transportMode)` from `useAnimation.ts`,
parametrized over turf's `bezierSpline` (third-party code; its
`try`/`catch` fallback makes it a total function on coordinate lists). -/
def smoothPath (bezier : List OptCoord → List OptCoord)
    (coordinates : List OptCoord) (transportMode : TransportMode) : List OptCoord :=
  if transportMode = TransportMode.plane ∨ coordinates.length ≤ 2 then coordinates
  else bezier coordinates

/-- `getAnimationFrame()` from `useAnimation.ts`, parametrized over the
turf.js primitives it calls: `bezier` (`turf.bezierSpline`), `lengthF`
(`turf.length`, kilometers), `alongF` (`turf.along`, kilometers) and
`sliceF` (`turf.lineSlice` from a start point to the marker point along a
line).  `route.segments[currentSegmentIndex]` is `undefined` for an
out-of-range (in particular negative) index. -/
def getAnimationFrame (bezier : List OptCoord → List OptCoord)
    (lengthF : List OptCoord → ℚ) (alongF : List OptCoord → ℚ → Coord)
    (sliceF : OptCoord → Coord → List OptCoord → List OptCoord)
    (s : RouteStore) : Option AnimationFrame :=
  match s.route with
  | none => none
  | some r =>
    if r.segments.length = 0 then none
    else
      let idx := s.animation.currentSegmentIndex
      match (if 0 ≤ idx then r.segments[idx.toNat]? else none) with
      | none => none
      | some currentSegment =>
        if currentSegment.path.length < 2 then none
        else
          let smoothed := smoothPath bezier currentSegment.path currentSegment.transportMode
          let totalLength := lengthF smoothed
          let currentDistance := totalLength * s.animation.segmentProgress
          let markerPosition := alongF smoothed currentDistance
          let completed :=
            ((r.segments.take idx.toNat).map
              (fun seg => smoothPath bezier seg.path seg.transportMode)).flatten
          let drawnPath :=
            match smoothed with
            | [] => completed
            | c0 :: _ => completed ++ sliceF c0 markerPosition smoothed
          some
            { markerPosition := markerPosition
              currentSegmentIndex := idx
              drawnPath := drawnPath
              progress := s.animation.currentProgress }

/-- `generateArcPath(start, end, numPoints = 50)` from `useVideoExport.ts`:
linear interpolation of both axes plus a parabolic-arc latitude offset
`arcHeight * sin(π t)` with `arcHeight = 0.1 * distance` and `distance`
the Euclidean straight-line distance. -/
noncomputable def generateArcPath (start stop : ℝ × ℝ) (numPoints : ℕ) :
    List (ℝ × ℝ) :=
  (List.range (numPoints + 1)).map (fun (i : ℕ) =>
    let t : ℝ := (i : ℝ) / (numPoints : ℝ)
    let lng := start.1 + (stop.1 - start.1) * t
    let lat := start.2 + (stop.2 - start.2) * t
    let distance := Real.sqrt ((stop.1 - start.1) ^ 2 + (stop.2 - start.2) ^ 2)
    let arcHeight := distance * 0.1
    let arc := arcHeight * Real.sin (Real.pi * t)
    (lng, lat + arc))

/-- Structural invariant of the Route data model (spec section 3,
invariant 1): one segment per consecutive waypoint pair, and segment `i`
addresses the ids of waypoints `i` and `i+1` in the current order.
(Natural-number subtraction realizes `max(waypoints.length - 1, 0)`.) -/
def routeConsistent (r : Route) : Prop :=
  r.segments.length = r.waypoints.length - 1 ∧
  ∀ i < r.segments.length,
    (r.segments[i]?.map RouteSegment.startWaypointId) =
      (r.waypoints[i]?.map Waypoint.id) ∧
    (r.segments[i]?.map RouteSegment.endWaypointId) =
      (r.waypoints[i + 1]?.map Waypoint.id)

instance (r : Route) : Decidable (routeConsistent r) := by
  unfold routeConsistent
  exact instDecidableAnd

/-- Implicit order-reindexing invariant: every waypoint's `order` field
equals its 0-based position in the waypoint array. -/
def ordersIndexed (r : Route) : Prop :=
  ∀ i < r.waypoints.length, (r.waypoints[i]?.map Waypoint.order) = some i

instance (r : Route) : Decidable (ordersIndexed r) := by
  unfold ordersIndexed
  exact Nat.decidableBallLT _ _

theorem buildPairs_length (step : Waypoint × Waypoint → ℕ → RouteSegment × ℕ) :
    ∀ (ps : List (Waypoint × Waypoint)) (n : ℕ),
      ((buildPairs step ps n).1).length = ps.length := by
  intro ps
  induction ps with
  | nil => intro n; rfl
  | cons p rest ih =>
    intro n
    simp only [buildPairs, List.length_cons, ih]

theorem buildPairs_connect (step : Waypoint × Waypoint → ℕ → RouteSegment × ℕ)
    (hstep : ∀ p n, ((step p n).1).startWaypointId = p.1.id ∧
      ((step p n).1).endWaypointId = p.2.id) :
    ∀ (ps : List (Waypoint × Waypoint)) (n i : ℕ) (p : Waypoint × Waypoint),
      ps[i]? = some p →
      ∃ seg, ((buildPairs step ps n).1)[i]? = some seg ∧
        seg.startWaypointId = p.1.id ∧ seg.endWaypointId = p.2.id := by
  intro ps
  induction ps with
  | nil => intro n i p hp; simp at hp
  | cons q rest ih =>
    intro n i p hp
    cases i with
    | zero =>
      simp only [List.getElem?_cons_zero, Option.some_inj] at hp
      subst hp
      exact ⟨(step q n).1, by simp [buildPairs], (hstep q n).1, (hstep q n).2⟩
    | succ i =>
      simp only [List.getElem?_cons_succ] at hp
      obtain ⟨seg, hseg, h1, h2⟩ := ih _ i p hp
      exact ⟨seg, by simpa [buildPairs] using hseg, h1, h2⟩

theorem removeStep_connect (oldSegs : List RouteSegment) :
    ∀ p n, ((removeStep oldSegs p n).1).startWaypointId = p.1.id ∧
      ((removeStep oldSegs p n).1).endWaypointId = p.2.id := by
  intro p n
  unfold removeStep
  cases hfind : oldSegs.find? (fun seg =>
      decide (seg.startWaypointId = p.1.id ∧ seg.endWaypointId = p.2.id)) with
  | none => exact ⟨rfl, rfl⟩
  | some seg =>
    have := List.find?_some hfind
    simp only [decide_eq_true_eq] at this
    exact ⟨this.1, this.2⟩

theorem reorderStep_connect (oldSegs : List RouteSegment) :
    ∀ p n, ((reorderStep oldSegs p n).1).startWaypointId = p.1.id ∧
      ((reorderStep oldSegs p n).1).endWaypointId = p.2.id := by
  intro p n
  unfold reorderStep
  cases hfind : oldSegs.find? (fun seg =>
      decide ((seg.startWaypointId = p.1.id ∧ seg.endWaypointId = p.2.id) ∨
              (seg.startWaypointId = p.2.id ∧ seg.endWaypointId = p.1.id))) with
  | none => exact ⟨rfl, rfl⟩
  | some seg => exact ⟨rfl, rfl⟩

theorem consecutivePairs_length (wps : List Waypoint) :
    (consecutivePairs wps).length = wps.length - 1 := by
  simp only [consecutivePairs, List.length_zip, List.length_tail]
  omega

theorem consecutivePairs_getElem? (wps : List Waypoint) (i : ℕ)
    (hi : i + 1 < wps.length) :
    (consecutivePairs wps)[i]? = some (wps[i], wps[i + 1]) := by
  have hlt : i < (consecutivePairs wps).length := by
    rw [consecutivePairs_length]; omega
  have hi0 : i < wps.length := by omega
  have htail : i < wps.tail.length := by simp [List.length_tail]; omega
  rw [List.getElem?_eq_getElem hlt]
  congr 1
  show (wps.zip wps.tail)[i] = (wps[i], wps[i + 1])
  rw [List.getElem_zip]
  congr 1
  rw [List.getElem_tail]

/-- A segment list rebuilt over the consecutive pairs of a waypoint list is
structurally consistent with it, whatever the per-pair body and fresh-id
seed, provided the body addresses each pair. -/
theorem rebuilt_consistent (step : Waypoint × Waypoint → ℕ → RouteSegment × ℕ)
    (hstep : ∀ p n, ((step p n).1).startWaypointId = p.1.id ∧
      ((step p n).1).endWaypointId = p.2.id)
    (wps : List Waypoint) (n : ℕ) (r : Route)
    (hw : r.waypoints = wps)
    (hs : r.segments = (buildPairs step (consecutivePairs wps) n).1) :
    routeConsistent r := by
  have hlen : r.segments.length = r.waypoints.length - 1 := by
    rw [hs, hw, buildPairs_length, consecutivePairs_length]
  refine ⟨hlen, ?_⟩
  intro i hi
  rw [hs] at hi
  rw [hs, hw]
  have hi1 : i + 1 < wps.length := by
    rw [buildPairs_length, consecutivePairs_length] at hi; omega
  have hpair := consecutivePairs_getElem? wps i hi1
  obtain ⟨seg, hseg, h1, h2⟩ :=
    buildPairs_connect step hstep (consecutivePairs wps) n i _ hpair
  rw [hseg]
  constructor
  · rw [List.getElem?_eq_getElem (show i < wps.length by omega)]
    simp [h1]
  · rw [List.getElem?_eq_getElem hi1]
    simp [h2]

/-- Reindexing by position: mapping `(index, element) ↦ g index element`
over an enumerated list yields `g i (l[i])` at position `i`. -/
theorem enumMap_getElem? {α β : Type} (g : ℕ → α → β) (l : List α) (i : ℕ) :
    (l.enum.map (fun iw => g iw.1 iw.2))[i]? = (l[i]?).map (g i) := by
  rw [List.getElem?_map, List.getElem?_enum]
  cases l[i]? <;> rfl

/-- Madrid, `(-3.70, 40.42)` as in the spec scenario. -/
def madrid : Coord := (-3.70, 40.42)

/-- Paris, `(2.35, 48.86)` as in the spec scenario. -/
def paris : Coord := (2.35, 48.86)

/-- The animation slice in its initial (stopped) configuration. -/
def stoppedAnimation : AnimationState :=
  { isPlaying := false
    isPaused := false
    currentProgress := 0
    currentSegmentIndex := 0
    segmentProgress := 0
    speed := 1 }

/-- Sample route: Madrid → Paris, two waypoints, one `car` segment (the
spec's one-segment scenario). -/
def sampleRoute2 : Route :=
  { id := 0
    name := "trip"
    waypoints :=
      [ { id := some 1, coordinates := some madrid, label := some "Madrid", order := 0 },
        { id := some 2, coordinates := some paris, label := some "Paris", order := 1 } ]
    segments :=
      [ { id := 10
          startWaypointId := some 1
          endWaypointId := some 2
          transportMode := TransportMode.car
          path := [some madrid, some paris] } ]
    createdAt := 0
    updatedAt := 0 }

/-- Sample store holding `sampleRoute2`. -/
def sampleStore2 : RouteStore :=
  { route := some sampleRoute2
    selectedWaypointId := none
    selectedSegmentId := none
    animation := stoppedAnimation
    nextId := 20 }

/-- Sample route: three waypoints (ids 1, 2, 3) joined by two `train`
segments (ids 10, 11). -/
def sampleRoute3 : Route :=
  { id := 0
    name := "trip"
    waypoints :=
      [ { id := some 1, coordinates := some (0, 0), label := none, order := 0 },
        { id := some 2, coordinates := some (1, 1), label := none, order := 1 },
        { id := some 3, coordinates := some (2, 2), label := none, order := 2 } ]
    segments :=
      [ { id := 10
          startWaypointId := some 1
          endWaypointId := some 2
          transportMode := TransportMode.train
          path := [some (0, 0), some (1, 1)] },
        { id := 11
          startWaypointId := some 2
          endWaypointId := some 3
          transportMode := TransportMode.train
          path := [some (1, 1), some (2, 2)] } ]
    createdAt := 0
    updatedAt := 0 }

/-- Sample store holding `sampleRoute3`. -/
def sampleStore3 : RouteStore :=
  { route := some sampleRoute3
    selectedWaypointId := none
    selectedSegmentId := none
    animation := stoppedAnimation
    nextId := 20 }

/-- C1: After every structural Route Model edit on a non-null route
(`addWaypoint`; `removeWaypoint` with a present id; `reorderWaypoints`),
`segments.length = max(waypoints.length - 1, 0)` and segment `i` addresses
the ids of waypoints `i` and `i+1` in the current order.  `addWaypoint`
preserves the invariant; the two rebuilding edits establish it outright. -/
theorem structural_edits_preserve_segment_consistency
    (s : RouteStore) (r : Route) (hroute : s.route = some r)
    (c : Coord) (lbl : Option String) (wid i j now : ℕ) :
    (routeConsistent r →
      ∀ r', (addWaypoint c lbl now s).route = some r' → routeConsistent r') ∧
    ((∃ wp ∈ r.waypoints, wp.id = some wid) →
      ∀ r', (removeWaypoint wid now s).route = some r' → routeConsistent r') ∧
    (∀ r', (reorderWaypoints i j now s).route = some r' → routeConsistent r') := by
  refine ⟨?_, ?_, ?_⟩
  · intro hinv r' hr'
    simp only [addWaypoint, hroute] at hr'
    cases hlast : r.waypoints.getLast? with
    | none =>
      rw [hlast] at hr'
      simp only [Option.some_inj] at hr'
      subst hr'
      have hempty : r.waypoints = [] := List.getLast?_eq_none_iff.mp hlast
      have hlen0 : r.segments.length = 0 := by
        have := hinv.1
        rw [hempty] at this
        simpa using this
      constructor
      · simp [hempty, hlen0]
      · intro k hk
        simp only [hlen0] at hk
        omega
    | some prev =>
      rw [hlast] at hr'
      simp only [Option.some_inj] at hr'
      subst hr'
      have hne : r.waypoints ≠ [] := by
        intro h; rw [h] at hlast; simp at hlast
      have hpos : 0 < r.waypoints.length := List.length_pos.mpr hne
      obtain ⟨hlen, hconn⟩ := hinv
      constructor
      · simp only [List.length_append, List.length_cons, List.length_nil]
        omega
      · intro k hk
        simp only [List.length_append, List.length_cons, List.length_nil] at hk
        rcases Nat.lt_or_ge k r.segments.length with hlt | hge
        · have hkw : k < r.waypoints.length := by omega
          have hkw1 : k + 1 < r.waypoints.length := by omega
          rw [List.getElem?_append_left hlt, List.getElem?_append_left hkw,
            List.getElem?_append_left hkw1]
          exact hconn k hlt
        · have hkeq : k = r.segments.length := by omega
          subst hkeq
          rw [List.getElem?_concat_length]
          constructor
          · rw [List.getElem?_append_left
              (show r.segments.length < r.waypoints.length by omega)]
            have hprev : r.waypoints[r.segments.length]? = some prev := by
              rw [hlen, ← List.getLast?_eq_getElem?]
              exact hlast
            rw [hprev]
            rfl
          · rw [show r.segments.length + 1 = r.waypoints.length by omega,
              List.getElem?_concat_length]
            rfl
  · intro hpres r' hr'
    simp only [removeWaypoint, hroute] at hr'
    split at hr'
    · rename_i hall
      obtain ⟨wp, hmem, hid⟩ := hpres
      rw [List.all_eq_true] at hall
      have := hall wp hmem
      simp [hid] at this
    · simp only [Option.some_inj] at hr'
      subst hr'
      exact rebuilt_consistent _ (removeStep_connect r.segments) _ s.nextId _ rfl rfl
  · intro r' hr'
    simp only [reorderWaypoints, hroute] at hr'
    simp only [Option.some_inj] at hr'
    subst hr'
    exact rebuilt_consistent _ (reorderStep_connect r.segments) _ s.nextId _ rfl rfl

/-- Witness for C1: the three structural edits applied to a concrete
consistent three-waypoint store. -/
theorem structural_edits_preserve_segment_consistency_witness :
    (sampleStore3.route = some sampleRoute3 ∧ routeConsistent sampleRoute3 ∧
      ∃ wp ∈ sampleRoute3.waypoints, wp.id = some (2 : ℕ)) ∧
    (∀ r', (addWaypoint (0, 0) none 9 sampleStore3).route = some r' → routeConsistent r') ∧
    (∀ r', (removeWaypoint 2 9 sampleStore3).route = some r' → routeConsistent r') ∧
    (∀ r', (reorderWaypoints 0 5 9 sampleStore3).route = some r' → routeConsistent r') := by
  have h := structural_edits_preserve_segment_consistency sampleStore3 sampleRoute3
    rfl (0, 0) none 2 0 5 9
  exact ⟨⟨rfl, by decide, by decide⟩, h.1 (by decide), h.2.1 (by decide), h.2.2⟩

/-- C10: For every non-null route whose waypoints have `order` equal to
their 0-based array index, each of `addWaypoint`, `removeWaypoint`
(present id) and `reorderWaypoints` re-establishes that every waypoint's
`order` equals its position: `addWaypoint` assigns
`order = previous count`, the other two reindex every order from 0. -/
theorem order_reindexing_invariant (s : RouteStore) (r : Route) (hroute : s.route = some r)
    (c : Coord) (lbl : Option String) (wid i j now : ℕ) :
    (ordersIndexed r →
      ∀ r', (addWaypoint c lbl now s).route = some r' → ordersIndexed r') ∧
    ((∃ wp ∈ r.waypoints, wp.id = some wid) →
      ∀ r', (removeWaypoint wid now s).route = some r' → ordersIndexed r') ∧
    (∀ r', (reorderWaypoints i j now s).route = some r' → ordersIndexed r') := by
  refine ⟨?_, ?_, ?_⟩
  · intro hinv r' hr'
    simp only [addWaypoint, hroute] at hr'
    have key : ∀ (X : Route), X.waypoints = r.waypoints ++
        [{ id := some s.nextId, coordinates := some c, label := lbl,
           order := r.waypoints.length : Waypoint }] → ordersIndexed X := by
      intro X hX
      intro k hk
      rw [hX] at hk ⊢
      simp only [List.length_append, List.length_cons, List.length_nil] at hk
      rcases Nat.lt_or_ge k r.waypoints.length with hlt | hge
      · rw [List.getElem?_append_left hlt]
        exact hinv k hlt
      · have hkeq : k = r.waypoints.length := by omega
        subst hkeq
        rw [List.getElem?_concat_length]
        rfl
    cases hlast : r.waypoints.getLast? with
    | none =>
      rw [hlast] at hr'
      simp only [Option.some_inj] at hr'
      subst hr'
      exact key _ rfl
    | some prev =>
      rw [hlast] at hr'
      simp only [Option.some_inj] at hr'
      subst hr'
      exact key _ rfl
  · intro hpres r' hr'
    simp only [removeWaypoint, hroute] at hr'
    split at hr'
    · rename_i hall
      obtain ⟨wp, hmem, hid⟩ := hpres
      rw [List.all_eq_true] at hall
      have := hall wp hmem
      simp [hid] at this
    · simp only [Option.some_inj] at hr'
      subst hr'
      intro k hk
      simp only [List.length_map, List.enum_length] at hk
      rw [List.getElem?_map, List.getElem?_enum,
        List.getElem?_eq_getElem hk]
      rfl
  · intro r' hr'
    simp only [reorderWaypoints, hroute] at hr'
    simp only [Option.some_inj] at hr'
    subst hr'
    intro k hk
    simp only [List.length_map, List.enum_length] at hk
    rw [List.getElem?_map, List.getElem?_enum,
      List.getElem?_eq_getElem hk]
    cases hval : (((r.waypoints.eraseIdx i).map some).take j ++ [r.waypoints[i]?] ++
        ((r.waypoints.eraseIdx i).map some).drop j)[k] with
    | none => simp [hval, undefinedWaypoint]
    | some wp => simp [hval]


/-- Witness for C10: the three structural edits applied to a concrete
correctly-indexed three-waypoint store. -/
theorem order_reindexing_invariant_witness :
    (sampleStore3.route = some sampleRoute3 ∧ ordersIndexed sampleRoute3 ∧
      ∃ wp ∈ sampleRoute3.waypoints, wp.id = some (2 : ℕ)) ∧
    (∀ r', (addWaypoint (0, 0) none 9 sampleStore3).route = some r' → ordersIndexed r') ∧
    (∀ r', (removeWaypoint 2 9 sampleStore3).route = some r' → ordersIndexed r') ∧
    (∀ r', (reorderWaypoints 0 5 9 sampleStore3).route = some r' → ordersIndexed r') := by
  have h := order_reindexing_invariant sampleStore3 sampleRoute3 rfl (0, 0) none 2 0 5 9
  exact ⟨⟨rfl, by decide, by decide⟩, h.1 (by decide), h.2.1 (by decide), h.2.2⟩

/-- A store with no route loaded. -/
def emptyStore : RouteStore :=
  { route := none
    selectedWaypointId := none
    selectedSegmentId := none
    animation := stoppedAnimation
    nextId := 0 }

/-- Counterexample to C2: in `sampleStore3` both removed-adjacent segments
exist and carry mode `train`, yet removing the middle waypoint rebuilds the
single segment with mode `car` — the `prevSegment`/`nextSegment` lookups in
`removeWaypoint` search for a segment ending at the pair's start
resp. starting at the pair's end, and no such segment exists in a
three-waypoint route, so nothing is ever inherited there. -/
theorem remove_middle_inherits_mode_counterexample :
    ((removeWaypoint 2 7 sampleStore3).route.map
      (fun r => r.segments.map RouteSegment.transportMode)) = some [TransportMode.car] ∧
    (∀ seg ∈ sampleRoute3.segments, seg.transportMode = TransportMode.train) ∧
    TransportMode.car ≠ TransportMode.train := by
  refine ⟨by decide, by decide, by decide⟩

/-- C2 (amended): removing the middle waypoint of a 3-waypoint route
produces exactly one rebuilt segment from waypoint 1 to waypoint 3 with a
straight-line path; its transport mode is looked up among the old segments
as one ending at waypoint 1 or starting at waypoint 3 — in a 3-waypoint
route neither exists, so the mode is always the default `car`, never
inherited from the removed-adjacent segments. -/
theorem remove_middle_waypoint_default_mode (s : RouteStore) (r : Route)
    (w1 w2 w3 : Waypoint) (s1 s2 : RouteSegment) (i1 i2 i3 now : ℕ)
    (hroute : s.route = some r)
    (hw : r.waypoints = [w1, w2, w3])
    (h1 : w1.id = some i1) (h2 : w2.id = some i2) (h3 : w3.id = some i3)
    (h12 : i1 ≠ i2) (h23 : i2 ≠ i3) (h13 : i1 ≠ i3)
    (hs : r.segments = [s1, s2])
    (hs1s : s1.startWaypointId = some i1) (hs1e : s1.endWaypointId = some i2)
    (hs2s : s2.startWaypointId = some i2) (hs2e : s2.endWaypointId = some i3) :
    ∃ r', (removeWaypoint i2 now s).route = some r' ∧
      r'.waypoints = [{ w1 with order := 0 }, { w3 with order := 1 }] ∧
      r'.segments = [{ id := s.nextId
                       startWaypointId := some i1
                       endWaypointId := some i3
                       transportMode := TransportMode.car
                       path := [w1.coordinates, w3.coordinates] }] := by
  simp only [removeWaypoint, hroute, hw, hs]
  simp [List.all_cons, h1, h2, h3, h12, h23, h13, Ne.symm h12, Ne.symm h23,
    Ne.symm h13, List.filter, consecutivePairs, buildPairs, removeStep,
    List.find?, hs1s, hs1e, hs2s, hs2e, List.enum, List.enumFrom]

/-- Witness for the amended C2: the concrete three-waypoint store. -/
theorem remove_middle_waypoint_default_mode_witness :
    (sampleStore3.route = some sampleRoute3 ∧ (1 : ℕ) ≠ 2 ∧ (2 : ℕ) ≠ 3 ∧ (1 : ℕ) ≠ 3) ∧
    ∃ r', (removeWaypoint 2 7 sampleStore3).route = some r' ∧
      r'.waypoints =
        [ { id := some 1, coordinates := some ((0 : ℚ), (0 : ℚ)), label := none, order := 0 },
          { id := some 3, coordinates := some ((2 : ℚ), (2 : ℚ)), label := none, order := 1 } ] ∧
      r'.segments =
        [ { id := 20
            startWaypointId := some 1
            endWaypointId := some 3
            transportMode := TransportMode.car
            path := [some ((0 : ℚ), (0 : ℚ)), some ((2 : ℚ), (2 : ℚ))] } ] := by
  refine ⟨⟨rfl, by decide, by decide, by decide⟩, ?_⟩
  exact remove_middle_waypoint_default_mode sampleStore3 sampleRoute3 _ _ _ _ _ 1 2 3 7
    rfl rfl rfl rfl rfl (by decide) (by decide) (by decide) rfl rfl rfl rfl rfl

/-- Counterexample to C3 as stated: (a) `updateSegmentTransport` with an
unknown segment id still refreshes `updatedAt`; (b) `reorderWaypoints`
with an out-of-range `toIndex` moves the first waypoint to the end of the
list rather than leaving it unchanged. -/
theorem noop_atomicity_counterexample :
    ((updateSegmentTransport 99 TransportMode.car 7 sampleStore3).route.map
      Route.updatedAt) = some 7 ∧
    (sampleStore3.route.map Route.updatedAt) = some 0 ∧ (7 : ℕ) ≠ 0 ∧
    (∀ seg ∈ sampleRoute3.segments, seg.id ≠ 99) ∧
    ((reorderWaypoints 0 5 7 sampleStore3).route.map
      (fun r => r.waypoints.map Waypoint.id)) = some [some 2, some 3, some 1] ∧
    (sampleStore3.route.map (fun r => r.waypoints.map Waypoint.id)) =
      some [some 1, some 2, some 3] ∧
    ¬ 5 < sampleRoute3.waypoints.length := by
  refine ⟨by decide, by decide, by decide, by decide, by decide, by decide, by decide⟩

/-- C3 (amended): every modelled operation on a null route is a no-op and
never throws; `removeWaypoint` with an unknown id is a full no-op;
`updateSegmentTransport` / `updateSegmentPath` with an unknown segment id
leave the waypoints, segments, animation and selections unchanged but
still refresh `updatedAt`.  (`reorderWaypoints` performs no index
validation; see the counterexample.) -/
theorem unknown_id_and_null_route_behaviour (s : RouteStore) (r : Route)
    (c : Coord) (lbl : Option String) (wid sid i j now : ℕ)
    (mode : TransportMode) (path : List OptCoord) (p dt : ℚ) :
    (s.route = none →
      addWaypoint c lbl now s = s ∧ removeWaypoint wid now s = s ∧
      reorderWaypoints i j now s = s ∧ updateSegmentTransport sid mode now s = s ∧
      updateSegmentPath sid path now s = s ∧ setAnimationProgress p s = s ∧
      updateAnimationFrame dt s = s) ∧
    (s.route = some r → (∀ wp ∈ r.waypoints, wp.id ≠ some wid) →
      removeWaypoint wid now s = s) ∧
    (s.route = some r → (∀ seg ∈ r.segments, seg.id ≠ sid) →
      updateSegmentTransport sid mode now s =
        { s with route := some { r with updatedAt := now } } ∧
      updateSegmentPath sid path now s =
        { s with route := some { r with updatedAt := now } }) := by
  refine ⟨?_, ?_, ?_⟩
  · intro h
    refine ⟨?_, ?_, ?_, ?_, ?_, ?_, ?_⟩ <;>
      simp [addWaypoint, removeWaypoint, reorderWaypoints, updateSegmentTransport,
        updateSegmentPath, setAnimationProgress, updateAnimationFrame, h]
  · intro hroute habs
    have hall : r.waypoints.all (fun wp => decide (¬ wp.id = some wid)) = true := by
      rw [List.all_eq_true]
      intro wp hmem
      simpa using habs wp hmem
    simp only [removeWaypoint, hroute]
    rw [if_pos hall]
  · intro hroute habs
    have hmap : ∀ (f : RouteSegment → RouteSegment),
        (∀ seg ∈ r.segments, f seg = seg) → r.segments.map f = r.segments := by
      intro f hf
      conv_rhs => rw [← List.map_id r.segments]
      exact List.map_congr_left hf
    constructor
    · simp only [updateSegmentTransport, hroute]
      rw [hmap _ (fun seg hmem => if_neg (habs seg hmem))]
    · simp only [updateSegmentPath, hroute]
      rw [hmap _ (fun seg hmem => if_neg (habs seg hmem))]

/-- Witness for the amended C3: null-route no-op, unknown waypoint id
no-op and unknown segment id timestamp-only update on concrete stores. -/
theorem unknown_id_and_null_route_behaviour_witness :
    (emptyStore.route = none ∧ sampleStore3.route = some sampleRoute3 ∧
      (∀ wp ∈ sampleRoute3.waypoints, wp.id ≠ some 99) ∧
      (∀ seg ∈ sampleRoute3.segments, seg.id ≠ 99)) ∧
    addWaypoint (0, 0) none 7 emptyStore = emptyStore ∧
    removeWaypoint 99 7 sampleStore3 = sampleStore3 ∧
    updateSegmentTransport 99 TransportMode.plane 7 sampleStore3 =
      { sampleStore3 with route := some { sampleRoute3 with updatedAt := 7 } } := by
  have h := unknown_id_and_null_route_behaviour sampleStore3 sampleRoute3 (0, 0) none
    99 99 0 0 7 TransportMode.plane [] 0 0
  have h0 := unknown_id_and_null_route_behaviour emptyStore sampleRoute3 (0, 0) none
    99 99 0 0 7 TransportMode.plane [] 0 0
  exact ⟨⟨rfl, rfl, by decide, by decide⟩, (h0.1 rfl).1, h.2.1 rfl (by decide),
    (h.2.2 rfl (by decide)).1⟩

/-- Counterexample to C4 as stated: scrubbing to `p = 1` on a one-segment
route stores `currentSegmentIndex = 0` and `segmentProgress = 0`
(`min(floor(1·1), 0) = 0` and `1 % 1 = 0`), so the reconstruction
`(0 + 0) / 1 = 0` does not recover `p = 1`. -/
theorem scrub_reconstruction_counterexample :
    (setAnimationProgress 1 sampleStore2).animation.currentSegmentIndex = 0 ∧
    (setAnimationProgress 1 sampleStore2).animation.segmentProgress = 0 ∧
    (sampleStore2.route.map (fun r => r.segments.length)) = some 1 ∧
    (((0 : ℚ) + 0) / 1) ≠ (1 : ℚ) := by
  refine ⟨?_, ?_, by decide, by norm_num⟩
  · simp [setAnimationProgress, sampleStore2, sampleRoute2]
  · simp [setAnimationProgress, sampleStore2, sampleRoute2]
    norm_num [jsRem1, jsTrunc]

/-- C4 (amended): for every route with non-empty segments and every
`p ∈ [0, 1)`, after `setAnimationProgress p` the stored state satisfies
`(currentSegmentIndex + segmentProgress) / segmentCount = p` exactly, with
`currentSegmentIndex ∈ [0, segmentCount − 1]` and `segmentProgress ∈ [0, 1)`
(at `p = 1` the reconstruction yields `1 − 1/segmentCount` instead). -/
theorem scrub_reconstructs_progress_below_one (s : RouteStore) (r : Route) (p : ℚ)
    (hroute : s.route = some r) (hne : r.segments.length ≠ 0)
    (h0 : 0 ≤ p) (h1 : p < 1) :
    (((setAnimationProgress p s).animation.currentSegmentIndex : ℚ) +
        (setAnimationProgress p s).animation.segmentProgress) /
      (r.segments.length : ℚ) = p ∧
    0 ≤ (setAnimationProgress p s).animation.currentSegmentIndex ∧
    (setAnimationProgress p s).animation.currentSegmentIndex ≤
      (r.segments.length : ℤ) - 1 ∧
    0 ≤ (setAnimationProgress p s).animation.segmentProgress ∧
    (setAnimationProgress p s).animation.segmentProgress < 1 ∧
    (setAnimationProgress p s).animation.currentProgress = p := by
  have hpos : (0 : ℚ) < (r.segments.length : ℚ) := by
    exact_mod_cast Nat.pos_of_ne_zero hne
  set q : ℚ := p * (r.segments.length : ℚ) with hq
  have hq0 : 0 ≤ q := mul_nonneg h0 (le_of_lt hpos)
  have hqlt : q < (r.segments.length : ℚ) := by
    calc q < 1 * (r.segments.length : ℚ) := by
            rw [hq]; exact mul_lt_mul_of_pos_right h1 hpos
      _ = (r.segments.length : ℚ) := one_mul _
  have hfloor_lt : ⌊q⌋ < (r.segments.length : ℤ) := by
    rw [Int.floor_lt]
    exact_mod_cast hqlt
  have hfloor0 : 0 ≤ ⌊q⌋ := Int.floor_nonneg.mpr hq0
  have hmin : min ⌊q⌋ ((r.segments.length : ℤ) - 1) = ⌊q⌋ :=
    min_eq_left (by omega)
  have hrem : jsRem1 q = q - (⌊q⌋ : ℚ) := by
    rw [jsRem1, jsTrunc, if_pos hq0]
  have hfle : (⌊q⌋ : ℚ) ≤ q := Int.floor_le q
  have hflt : q < (⌊q⌋ : ℚ) + 1 := Int.lt_floor_add_one q
  simp only [setAnimationProgress, hroute]
  rw [if_neg hne]
  dsimp only
  simp only [hmin, hrem]
  refine ⟨?_, hfloor0, by omega, by linarith, by linarith, by trivial⟩
  · field_simp

/-- Witness for the amended C4: scrubbing to `p = 1/2` on the one-segment
Madrid → Paris store. -/
theorem scrub_reconstructs_progress_below_one_witness :
    (sampleStore2.route = some sampleRoute2 ∧ sampleRoute2.segments.length ≠ 0 ∧
      (0 : ℚ) ≤ 1/2 ∧ (1/2 : ℚ) < 1) ∧
    (((setAnimationProgress (1/2) sampleStore2).animation.currentSegmentIndex : ℚ) +
        (setAnimationProgress (1/2) sampleStore2).animation.segmentProgress) /
      (sampleRoute2.segments.length : ℚ) = 1/2 ∧
    0 ≤ (setAnimationProgress (1/2) sampleStore2).animation.currentSegmentIndex ∧
    (setAnimationProgress (1/2) sampleStore2).animation.currentSegmentIndex ≤
      (sampleRoute2.segments.length : ℤ) - 1 ∧
    0 ≤ (setAnimationProgress (1/2) sampleStore2).animation.segmentProgress ∧
    (setAnimationProgress (1/2) sampleStore2).animation.segmentProgress < 1 ∧
    (setAnimationProgress (1/2) sampleStore2).animation.currentProgress = 1/2 := by
  have h := scrub_reconstructs_progress_below_one sampleStore2 sampleRoute2 (1/2)
    rfl (by decide) (by norm_num) (by norm_num)
  exact ⟨⟨rfl, by decide, by norm_num, by norm_num⟩, h.1, h.2.1, h.2.2.1,
    h.2.2.2.1, h.2.2.2.2.1, h.2.2.2.2.2⟩

/-- C5: while Playing on a non-null route with non-empty segments,
`updateAnimationFrame(dt)` advances progress by `(dt/1000) · 0.05 · speed`
clamped to 1 (the hard-coded base rate `0.05`/s completes default-speed
playback in 20 seconds); if the advanced progress reaches 1 the state
auto-transitions to Stopped with all progress fields zero (speed kept),
otherwise the result is exactly `setAnimationProgress` of the advanced
progress, i.e. the same recomputation as scrub. -/
theorem tick_advances_and_autostops (s : RouteStore) (r : Route) (dt : ℚ)
    (hroute : s.route = some r) (hplay : s.animation.isPlaying = true)
    (hne : r.segments.length ≠ 0) :
    (1 ≤ s.animation.currentProgress + dt / 1000 * (0.05 : ℚ) * s.animation.speed →
      updateAnimationFrame dt s =
        { s with animation :=
          { s.animation with
            isPlaying := false
            isPaused := false
            currentProgress := 0
            currentSegmentIndex := 0
            segmentProgress := 0 } }) ∧
    (s.animation.currentProgress + dt / 1000 * (0.05 : ℚ) * s.animation.speed < 1 →
      updateAnimationFrame dt s =
        setAnimationProgress
          (s.animation.currentProgress + dt / 1000 * (0.05 : ℚ) * s.animation.speed) s ∧
      (updateAnimationFrame dt s).animation.currentProgress =
        s.animation.currentProgress + dt / 1000 * (0.05 : ℚ) * s.animation.speed) := by
  simp only [updateAnimationFrame, hroute, hplay]
  rw [if_neg (by simp)]
  rw [if_neg hne]
  constructor
  · intro hge
    rw [if_pos (le_min hge le_rfl)]
  · intro hlt
    rw [if_neg (by rw [min_eq_left (le_of_lt hlt)]; exact not_le.mpr hlt),
      min_eq_left (le_of_lt hlt)]
    refine ⟨rfl, ?_⟩
    simp only [setAnimationProgress, hroute]
    rw [if_neg hne]

/-- A consistent mid-playback store: Madrid → Paris, playing at progress
`1/2` with the segment fields exactly as a scrub to `1/2` stores them. -/
def consistentPlaying2 : RouteStore :=
  { sampleStore2 with animation :=
      { isPlaying := true
        isPaused := false
        currentProgress := 1/2
        currentSegmentIndex := 0
        segmentProgress := 1/2
        speed := 1 } }

/-- Witness for C5: a 100 ms tick on the mid-playback store advances the
progress by `100/1000 · 0.05 · 1` and delegates to the scrub
recomputation. -/
theorem tick_advances_and_autostops_witness :
    (consistentPlaying2.route = some sampleRoute2 ∧
      consistentPlaying2.animation.isPlaying = true ∧
      sampleRoute2.segments.length ≠ 0 ∧
      consistentPlaying2.animation.currentProgress +
        100 / 1000 * (0.05 : ℚ) * consistentPlaying2.animation.speed < 1) ∧
    updateAnimationFrame 100 consistentPlaying2 =
      setAnimationProgress
        (consistentPlaying2.animation.currentProgress +
          100 / 1000 * (0.05 : ℚ) * consistentPlaying2.animation.speed)
        consistentPlaying2 ∧
    (updateAnimationFrame 100 consistentPlaying2).animation.currentProgress =
      consistentPlaying2.animation.currentProgress +
        100 / 1000 * (0.05 : ℚ) * consistentPlaying2.animation.speed := by
  have h := tick_advances_and_autostops consistentPlaying2 sampleRoute2 100
    rfl rfl (by decide)
  exact ⟨⟨rfl, rfl, by decide, by norm_num [consistentPlaying2]⟩,
    h.2 (by norm_num [consistentPlaying2])⟩

/-- Counterexample to C6 as stated: from the reachable state obtained by
scrubbing to progress 1 and pressing play, a zero-delta tick is not a
no-op — `min(1 + 0, 1) = 1 ≥ 1` triggers the completion branch, which
stops playback and rewinds progress to 0. -/
theorem tick_zero_counterexample :
    (updateAnimationFrame 0
      (playAnimation (setAnimationProgress 1 sampleStore2))).animation.isPlaying = false ∧
    (playAnimation (setAnimationProgress 1 sampleStore2)).animation.isPlaying = true ∧
    updateAnimationFrame 0 (playAnimation (setAnimationProgress 1 sampleStore2)) ≠
      playAnimation (setAnimationProgress 1 sampleStore2) := by
  have h1 : (updateAnimationFrame 0
      (playAnimation (setAnimationProgress 1 sampleStore2))).animation.isPlaying = false := by
    simp [updateAnimationFrame, playAnimation, setAnimationProgress, sampleStore2, sampleRoute2]
  have h2 : (playAnimation (setAnimationProgress 1 sampleStore2)).animation.isPlaying = true := rfl
  refine ⟨h1, h2, fun heq => ?_⟩
  rw [heq, h2] at h1
  exact Bool.noConfusion h1

/-- C6 (amended): `updateAnimationFrame 0` causes no state change on every
store that is not actively playing (null route, empty segments or
`isPlaying = false`) and on every actively playing store whose
`currentProgress` is below 1 and whose segment fields agree with the scrub
recomputation (as any scrub-established state does). -/
theorem tick_zero_noop (s : RouteStore)
    (h : ∀ r, s.route = some r → s.animation.isPlaying = true →
      r.segments.length ≠ 0 →
      s.animation.currentProgress < 1 ∧
      s.animation.currentSegmentIndex =
        min ⌊s.animation.currentProgress * (r.segments.length : ℚ)⌋
          ((r.segments.length : ℤ) - 1) ∧
      s.animation.segmentProgress =
        jsRem1 (s.animation.currentProgress * (r.segments.length : ℚ))) :
    updateAnimationFrame 0 s = s := by
  cases hroute : s.route with
  | none => simp [updateAnimationFrame, hroute]
  | some r =>
    cases hplay : s.animation.isPlaying with
    | false => simp [updateAnimationFrame, hroute, hplay]
    | true =>
      by_cases hne : r.segments.length = 0
      · simp [updateAnimationFrame, hroute, hplay, hne]
      · obtain ⟨hp, hidx, hsp⟩ := h r hroute hplay hne
        simp only [updateAnimationFrame, hroute, hplay]
        rw [if_neg (by simp), if_neg hne]
        have hinc : (0 : ℚ) / 1000 * (0.05 : ℚ) * s.animation.speed = 0 := by ring
        rw [hinc, add_zero, min_eq_left (le_of_lt hp), if_neg (not_le.mpr hp)]
        simp only [setAnimationProgress, hroute]
        rw [if_neg hne]
        rw [← hidx, ← hsp, ← hroute]

/-- Witness for the amended C6: the consistent mid-playback store is left
exactly unchanged by a zero-delta tick. -/
theorem tick_zero_noop_witness :
    (∀ r, consistentPlaying2.route = some r →
      consistentPlaying2.animation.isPlaying = true → r.segments.length ≠ 0 →
      consistentPlaying2.animation.currentProgress < 1 ∧
      consistentPlaying2.animation.currentSegmentIndex =
        min ⌊consistentPlaying2.animation.currentProgress * (r.segments.length : ℚ)⌋
          ((r.segments.length : ℤ) - 1) ∧
      consistentPlaying2.animation.segmentProgress =
        jsRem1 (consistentPlaying2.animation.currentProgress * (r.segments.length : ℚ))) ∧
    updateAnimationFrame 0 consistentPlaying2 = consistentPlaying2 := by
  have hh : ∀ r, consistentPlaying2.route = some r →
      consistentPlaying2.animation.isPlaying = true → r.segments.length ≠ 0 →
      consistentPlaying2.animation.currentProgress < 1 ∧
      consistentPlaying2.animation.currentSegmentIndex =
        min ⌊consistentPlaying2.animation.currentProgress * (r.segments.length : ℚ)⌋
          ((r.segments.length : ℤ) - 1) ∧
      consistentPlaying2.animation.segmentProgress =
        jsRem1 (consistentPlaying2.animation.currentProgress * (r.segments.length : ℚ)) := by
    intro r hr hplay hne
    have hreq : r = sampleRoute2 := by
      have := hr.symm
      simpa [consistentPlaying2, sampleStore2] using this
    subst hreq
    refine ⟨by norm_num [consistentPlaying2], ?_, ?_⟩
    · norm_num [consistentPlaying2, sampleRoute2, min_def]
    · norm_num [consistentPlaying2, sampleRoute2, jsRem1, jsTrunc]
  exact ⟨hh, tick_zero_noop consistentPlaying2 hh⟩

/-- C7: the Frame Sampler returns `null` exactly when there is no route,
the segment list is empty, or the current segment's path has fewer than
two points (given the playback invariant that `currentSegmentIndex` is in
range whenever segments exist); otherwise it returns a frame whose
`markerPosition` is the point at cumulative distance
`length(smoothed current path) × segmentProgress` along the smoothed
current path — stated for arbitrary turf primitives
`bezier`/`lengthF`/`alongF`/`sliceF`. -/
theorem frame_sampler_null_and_marker
    (bezier : List OptCoord → List OptCoord) (lengthF : List OptCoord → ℚ)
    (alongF : List OptCoord → ℚ → Coord)
    (sliceF : OptCoord → Coord → List OptCoord → List OptCoord)
    (s : RouteStore) (r : Route) (hroute : s.route = some r)
    (hinv : r.segments ≠ [] → 0 ≤ s.animation.currentSegmentIndex ∧
      s.animation.currentSegmentIndex.toNat < r.segments.length) :
    (∀ s', s'.route = none → getAnimationFrame bezier lengthF alongF sliceF s' = none) ∧
    (getAnimationFrame bezier lengthF alongF sliceF s = none ↔
      (r.segments = [] ∨
        ∃ seg, r.segments[s.animation.currentSegmentIndex.toNat]? = some seg ∧
          seg.path.length < 2)) ∧
    (∀ fr, getAnimationFrame bezier lengthF alongF sliceF s = some fr →
      ∃ seg, r.segments[s.animation.currentSegmentIndex.toNat]? = some seg ∧
        2 ≤ seg.path.length ∧
        fr.markerPosition =
          alongF (smoothPath bezier seg.path seg.transportMode)
            (lengthF (smoothPath bezier seg.path seg.transportMode) *
              s.animation.segmentProgress) ∧
        fr.progress = s.animation.currentProgress ∧
        fr.currentSegmentIndex = s.animation.currentSegmentIndex) := by
  refine ⟨?_, ?_⟩
  · intro s' h
    simp [getAnimationFrame, h]
  by_cases hseg : r.segments = []
  · constructor
    · simp [getAnimationFrame, hroute, hseg]
    · intro fr heq
      simp [getAnimationFrame, hroute, hseg] at heq
  · obtain ⟨hge, hlt⟩ := hinv hseg
    have hlen0 : ¬ r.segments.length = 0 := by
      simpa [List.length_eq_zero] using hseg
    have hsome : r.segments[s.animation.currentSegmentIndex.toNat]? =
        some (r.segments[s.animation.currentSegmentIndex.toNat]) :=
      List.getElem?_eq_getElem hlt
    by_cases hpath : (r.segments[s.animation.currentSegmentIndex.toNat]).path.length < 2
    · have heval : getAnimationFrame bezier lengthF alongF sliceF s = none := by
        simp only [getAnimationFrame, hroute]
        rw [if_neg hlen0, if_pos hge, hsome]
        simp [hpath]
      constructor
      · rw [heval]
        simp only [true_iff]
        exact Or.inr ⟨_, hsome, hpath⟩
      · intro fr heq
        rw [heval] at heq
        exact Option.noConfusion heq
    · have heval : getAnimationFrame bezier lengthF alongF sliceF s =
          some
            { markerPosition :=
                alongF (smoothPath bezier (r.segments[s.animation.currentSegmentIndex.toNat]).path
                    (r.segments[s.animation.currentSegmentIndex.toNat]).transportMode)
                  (lengthF (smoothPath bezier (r.segments[s.animation.currentSegmentIndex.toNat]).path
                      (r.segments[s.animation.currentSegmentIndex.toNat]).transportMode) *
                    s.animation.segmentProgress)
              currentSegmentIndex := s.animation.currentSegmentIndex
              drawnPath :=
                match smoothPath bezier (r.segments[s.animation.currentSegmentIndex.toNat]).path
                    (r.segments[s.animation.currentSegmentIndex.toNat]).transportMode with
                | [] =>
                  ((r.segments.take s.animation.currentSegmentIndex.toNat).map
                    (fun seg => smoothPath bezier seg.path seg.transportMode)).flatten
                | c0 :: _ =>
                  ((r.segments.take s.animation.currentSegmentIndex.toNat).map
                    (fun seg => smoothPath bezier seg.path seg.transportMode)).flatten ++
                    sliceF c0
                      (alongF (smoothPath bezier (r.segments[s.animation.currentSegmentIndex.toNat]).path
                          (r.segments[s.animation.currentSegmentIndex.toNat]).transportMode)
                        (lengthF (smoothPath bezier (r.segments[s.animation.currentSegmentIndex.toNat]).path
                            (r.segments[s.animation.currentSegmentIndex.toNat]).transportMode) *
                          s.animation.segmentProgress))
                      (smoothPath bezier (r.segments[s.animation.currentSegmentIndex.toNat]).path
                        (r.segments[s.animation.currentSegmentIndex.toNat]).transportMode)
              progress := s.animation.currentProgress } := by
        simp only [getAnimationFrame, hroute]
        rw [if_neg hlen0, if_pos hge, hsome]
        simp [hpath]
      constructor
      · rw [heval]
        apply iff_of_false
        · simp
        push_neg
        refine ⟨hseg, ?_⟩
        intro seg hseg'
        rw [hsome] at hseg'
        injection hseg' with h'
        rw [← h']
        exact not_lt.mp hpath
      · intro fr heq
        rw [heval] at heq
        injection heq with h'
        refine ⟨_, hsome, not_lt.mp hpath, ?_, ?_, ?_⟩ <;> rw [← h']

/-- Witness for C7: concrete turf stand-ins on the Madrid → Paris store
scrubbed to `segmentProgress = 1/2`. -/
theorem frame_sampler_null_and_marker_witness :
    (consistentPlaying2.route = some sampleRoute2 ∧
      (sampleRoute2.segments ≠ [] → 0 ≤ consistentPlaying2.animation.currentSegmentIndex ∧
        consistentPlaying2.animation.currentSegmentIndex.toNat < sampleRoute2.segments.length)) ∧
    (getAnimationFrame (fun l => l) (fun _ => 10) (fun _ d => (d, d)) (fun _ _ l => l)
        consistentPlaying2 = none ↔
      (sampleRoute2.segments = [] ∨
        ∃ seg, sampleRoute2.segments[consistentPlaying2.animation.currentSegmentIndex.toNat]? =
            some seg ∧ seg.path.length < 2)) ∧
    (∀ fr, getAnimationFrame (fun l => l) (fun _ => 10) (fun _ d => (d, d)) (fun _ _ l => l)
        consistentPlaying2 = some fr →
      ∃ seg, sampleRoute2.segments[consistentPlaying2.animation.currentSegmentIndex.toNat]? =
          some seg ∧
        2 ≤ seg.path.length ∧
        fr.markerPosition =
          (fun _ d => ((d : ℚ), d)) (smoothPath (fun l => l) seg.path seg.transportMode)
            ((fun _ => (10 : ℚ)) (smoothPath (fun l => l) seg.path seg.transportMode) *
              consistentPlaying2.animation.segmentProgress) ∧
        fr.progress = consistentPlaying2.animation.currentProgress ∧
        fr.currentSegmentIndex = consistentPlaying2.animation.currentSegmentIndex) := by
  have h := frame_sampler_null_and_marker (fun l => l) (fun _ => 10) (fun _ d => (d, d)) (fun _ _ l => l)
    consistentPlaying2 sampleRoute2 rfl (by decide)
  exact ⟨⟨rfl, by decide⟩, h.2.1, h.2.2⟩

/-- C9: on a route containing the addressed segment,
`updateSegmentTransport` / `updateSegmentPath` change only the addressed
segment's `transportMode` / `path` field and the route's `updatedAt`; the
waypoints, the other segments, `id`, `name`, `createdAt`, the animation
state, the selections and the id counter are unchanged. -/
theorem segment_field_updates_frame_effect (s : RouteStore) (r : Route) (sid now : ℕ)
    (mode : TransportMode) (path : List OptCoord)
    (hroute : s.route = some r) (_hmem : ∃ seg ∈ r.segments, seg.id = sid) :
    (∃ r', (updateSegmentTransport sid mode now s).route = some r' ∧
      r'.id = r.id ∧ r'.name = r.name ∧ r'.waypoints = r.waypoints ∧
      r'.createdAt = r.createdAt ∧ r'.updatedAt = now ∧
      r'.segments.length = r.segments.length ∧
      (∀ j : ℕ, r'.segments[j]? = (r.segments[j]?).map (fun seg =>
        if seg.id = sid then { seg with transportMode := mode } else seg))) ∧
    (updateSegmentTransport sid mode now s).animation = s.animation ∧
    (updateSegmentTransport sid mode now s).selectedWaypointId = s.selectedWaypointId ∧
    (updateSegmentTransport sid mode now s).selectedSegmentId = s.selectedSegmentId ∧
    (updateSegmentTransport sid mode now s).nextId = s.nextId ∧
    (∃ r', (updateSegmentPath sid path now s).route = some r' ∧
      r'.id = r.id ∧ r'.name = r.name ∧ r'.waypoints = r.waypoints ∧
      r'.createdAt = r.createdAt ∧ r'.updatedAt = now ∧
      r'.segments.length = r.segments.length ∧
      (∀ j : ℕ, r'.segments[j]? = (r.segments[j]?).map (fun seg =>
        if seg.id = sid then { seg with path := path } else seg))) ∧
    (updateSegmentPath sid path now s).animation = s.animation ∧
    (updateSegmentPath sid path now s).selectedWaypointId = s.selectedWaypointId ∧
    (updateSegmentPath sid path now s).selectedSegmentId = s.selectedSegmentId ∧
    (updateSegmentPath sid path now s).nextId = s.nextId := by
  have e1 : updateSegmentTransport sid mode now s =
      { s with route := some { r with
          segments := r.segments.map (fun seg =>
            if seg.id = sid then { seg with transportMode := mode } else seg)
          updatedAt := now } } := by
    simp only [updateSegmentTransport, hroute]
  have e2 : updateSegmentPath sid path now s =
      { s with route := some { r with
          segments := r.segments.map (fun seg =>
            if seg.id = sid then { seg with path := path } else seg)
          updatedAt := now } } := by
    simp only [updateSegmentPath, hroute]
  rw [e1, e2]
  refine ⟨⟨_, rfl, rfl, rfl, rfl, rfl, rfl, by simp, fun j => by rw [List.getElem?_map]⟩,
    rfl, rfl, rfl, rfl,
    ⟨_, rfl, rfl, rfl, rfl, rfl, rfl, by simp, fun j => by rw [List.getElem?_map]⟩,
    rfl, rfl, rfl, rfl⟩

/-- Witness for C9: retargeting segment 10 of the three-waypoint store to
`plane` / a new two-point path at time 7. -/
theorem segment_field_updates_frame_effect_witness :
    (sampleStore3.route = some sampleRoute3 ∧
      ∃ seg ∈ sampleRoute3.segments, seg.id = 10) ∧
    (∃ r', (updateSegmentTransport 10 TransportMode.plane 7 sampleStore3).route = some r' ∧
      r'.id = sampleRoute3.id ∧ r'.name = sampleRoute3.name ∧
      r'.waypoints = sampleRoute3.waypoints ∧
      r'.createdAt = sampleRoute3.createdAt ∧ r'.updatedAt = 7 ∧
      r'.segments.length = sampleRoute3.segments.length ∧
      (∀ j : ℕ, r'.segments[j]? = (sampleRoute3.segments[j]?).map (fun seg =>
        if seg.id = 10 then { seg with transportMode := TransportMode.plane } else seg))) ∧
    (updateSegmentTransport 10 TransportMode.plane 7 sampleStore3).animation =
      sampleStore3.animation ∧
    (updateSegmentTransport 10 TransportMode.plane 7 sampleStore3).selectedWaypointId =
      sampleStore3.selectedWaypointId ∧
    (updateSegmentTransport 10 TransportMode.plane 7 sampleStore3).selectedSegmentId =
      sampleStore3.selectedSegmentId ∧
    (updateSegmentTransport 10 TransportMode.plane 7 sampleStore3).nextId =
      sampleStore3.nextId ∧
    (∃ r', (updateSegmentPath 10 [some (5, 5), some (6, 6)] 7 sampleStore3).route = some r' ∧
      r'.id = sampleRoute3.id ∧ r'.name = sampleRoute3.name ∧
      r'.waypoints = sampleRoute3.waypoints ∧
      r'.createdAt = sampleRoute3.createdAt ∧ r'.updatedAt = 7 ∧
      r'.segments.length = sampleRoute3.segments.length ∧
      (∀ j : ℕ, r'.segments[j]? = (sampleRoute3.segments[j]?).map (fun seg =>
        if seg.id = 10 then { seg with path := [some (5, 5), some (6, 6)] } else seg))) ∧
    (updateSegmentPath 10 [some (5, 5), some (6, 6)] 7 sampleStore3).animation =
      sampleStore3.animation ∧
    (updateSegmentPath 10 [some (5, 5), some (6, 6)] 7 sampleStore3).selectedWaypointId =
      sampleStore3.selectedWaypointId ∧
    (updateSegmentPath 10 [some (5, 5), some (6, 6)] 7 sampleStore3).selectedSegmentId =
      sampleStore3.selectedSegmentId ∧
    (updateSegmentPath 10 [some (5, 5), some (6, 6)] 7 sampleStore3).nextId =
      sampleStore3.nextId := by
  have h := segment_field_updates_frame_effect sampleStore3 sampleRoute3 10 7
    TransportMode.plane [some (5, 5), some (6, 6)] rfl (by decide)
  exact ⟨⟨rfl, by decide⟩, h.1, h.2.1, h.2.2.1, h.2.2.2.1, h.2.2.2.2.1,
    h.2.2.2.2.2.1, h.2.2.2.2.2.2.1, h.2.2.2.2.2.2.2.1, h.2.2.2.2.2.2.2.2.1,
    h.2.2.2.2.2.2.2.2.2⟩

/-- The specification bundle for C8: `generateArcPath` returns exactly
`numPoints + 1` points; point `i` (at `t = i/numPoints`) is the linear
interpolation of both axes plus the latitude offset
`0.1·dist·sin(π·t)` with `dist` the Euclidean straight-line distance; the
offset is zero at both ends (the endpoints are hit exactly), lies in
`[0, 0.1·dist]` throughout and equals `0.1·dist` at the midpoint sample
when `numPoints` is even; and `generateArcPath A A` is `numPoints + 1`
copies of `A`. -/
def ArcPathSpec (a b : ℝ × ℝ) (numPoints : ℕ) : Prop :=
  (generateArcPath a b numPoints).length = numPoints + 1 ∧
  (∀ i ≤ numPoints, (generateArcPath a b numPoints)[i]? =
    some (a.1 + (b.1 - a.1) * ((i : ℝ) / (numPoints : ℝ)),
          a.2 + (b.2 - a.2) * ((i : ℝ) / (numPoints : ℝ)) +
            0.1 * Real.sqrt ((b.1 - a.1) ^ 2 + (b.2 - a.2) ^ 2) *
              Real.sin (Real.pi * ((i : ℝ) / (numPoints : ℝ))))) ∧
  (generateArcPath a b numPoints)[0]? = some a ∧
  (generateArcPath a b numPoints)[numPoints]? = some b ∧
  (∀ i ≤ numPoints, ∃ pt, (generateArcPath a b numPoints)[i]? = some pt ∧
    pt.1 = a.1 + (b.1 - a.1) * ((i : ℝ) / (numPoints : ℝ)) ∧
    0 ≤ pt.2 - (a.2 + (b.2 - a.2) * ((i : ℝ) / (numPoints : ℝ))) ∧
    pt.2 - (a.2 + (b.2 - a.2) * ((i : ℝ) / (numPoints : ℝ))) ≤
      0.1 * Real.sqrt ((b.1 - a.1) ^ 2 + (b.2 - a.2) ^ 2)) ∧
  (2 * (numPoints / 2) = numPoints →
    (generateArcPath a b numPoints)[numPoints / 2]? =
      some ((a.1 + b.1) / 2,
        (a.2 + b.2) / 2 + 0.1 * Real.sqrt ((b.1 - a.1) ^ 2 + (b.2 - a.2) ^ 2))) ∧
  generateArcPath a a numPoints = List.replicate (numPoints + 1) a

/-- C8: the arc-path specification holds for every start, end and positive
`numPoints` (the sample formula divides by `numPoints`, so `numPoints = 0`
is excluded: there JavaScript computes `0/0 = NaN`). -/
theorem arc_path_spec (a b : ℝ × ℝ) (numPoints : ℕ) (h : 0 < numPoints) :
    ArcPathSpec a b numPoints := by
  have hn : (numPoints : ℝ) ≠ 0 := Nat.cast_ne_zero.mpr (Nat.pos_iff_ne_zero.mp h)
  have hnpos : (0 : ℝ) < (numPoints : ℝ) := by exact_mod_cast h
  have key : ∀ (u v : ℝ × ℝ) (i : ℕ), i < numPoints + 1 →
      (generateArcPath u v numPoints)[i]? =
        some (u.1 + (v.1 - u.1) * ((i : ℝ) / (numPoints : ℝ)),
              u.2 + (v.2 - u.2) * ((i : ℝ) / (numPoints : ℝ)) +
                Real.sqrt ((v.1 - u.1) ^ 2 + (v.2 - u.2) ^ 2) * 0.1 *
                  Real.sin (Real.pi * ((i : ℝ) / (numPoints : ℝ)))) := by
    intro u v i hi
    unfold generateArcPath
    rw [List.getElem?_map, List.getElem?_range hi]
    rfl
  refine ⟨?_, ?_, ?_, ?_, ?_, ?_, ?_⟩
  · simp [generateArcPath]
  · intro i hi
    rw [key a b i (by omega)]
    simp only [Option.some_inj, Prod.mk.injEq]
    exact ⟨trivial, by ring⟩
  · rw [key a b 0 (by omega)]
    norm_num
  · rw [key a b numPoints (by omega)]
    rw [div_self hn]
    simp only [Option.some_inj, mul_one, Real.sin_pi, mul_zero, add_zero]
    have e1 : a.1 + (b.1 - a.1) = b.1 := by ring
    have e2 : a.2 + (b.2 - a.2) = b.2 := by ring
    rw [e1, e2]
  · intro i hi
    refine ⟨_, key a b i (by omega), rfl, ?_, ?_⟩ <;>
    · have ht0 : (0 : ℝ) ≤ (i : ℝ) / (numPoints : ℝ) :=
        div_nonneg (Nat.cast_nonneg i) (Nat.cast_nonneg numPoints)
      have ht1 : (i : ℝ) / (numPoints : ℝ) ≤ 1 :=
        (div_le_one hnpos).mpr (by exact_mod_cast hi)
      have hsin0 : 0 ≤ Real.sin (Real.pi * ((i : ℝ) / (numPoints : ℝ))) := by
        apply Real.sin_nonneg_of_nonneg_of_le_pi
        · exact mul_nonneg Real.pi_pos.le ht0
        · calc Real.pi * ((i : ℝ) / (numPoints : ℝ)) ≤ Real.pi * 1 :=
                mul_le_mul_of_nonneg_left ht1 Real.pi_pos.le
            _ = Real.pi := mul_one _
      have hsin1 : Real.sin (Real.pi * ((i : ℝ) / (numPoints : ℝ))) ≤ 1 :=
        Real.sin_le_one _
      have hd0 : (0 : ℝ) ≤ Real.sqrt ((b.1 - a.1) ^ 2 + (b.2 - a.2) ^ 2) :=
        Real.sqrt_nonneg _
      simp only [add_sub_cancel_left]
      first
      | exact mul_nonneg (mul_nonneg hd0 (by norm_num)) hsin0
      | nlinarith [mul_le_mul_of_nonneg_left hsin1
          (mul_nonneg hd0 (by norm_num : (0:ℝ) ≤ 0.1))]
  · intro heven
    have hhalf : ((numPoints / 2 : ℕ) : ℝ) / (numPoints : ℝ) = 1 / 2 := by
      have h2 : (2 : ℝ) * ((numPoints / 2 : ℕ) : ℝ) = (numPoints : ℝ) := by
        exact_mod_cast congrArg (Nat.cast : ℕ → ℝ) heven
      field_simp
      linarith
    rw [key a b (numPoints / 2) (by omega), hhalf]
    rw [show Real.pi * ((1 : ℝ) / 2) = Real.pi / 2 by ring, Real.sin_pi_div_two]
    simp only [Option.some_inj, Prod.mk.injEq, mul_one]
    constructor <;> ring
  · rw [List.eq_replicate_iff]
    constructor
    · simp [generateArcPath]
    · intro x hx
      unfold generateArcPath at hx
      rw [List.mem_map] at hx
      obtain ⟨i, _, rfl⟩ := hx
      simp [sub_self]

/-- Witness for C8: the Madrid → Paris arc with the default 50 samples. -/
theorem arc_path_spec_witness :
    0 < 50 ∧ ArcPathSpec ((-3.7 : ℝ), (40.42 : ℝ)) ((2.35 : ℝ), (48.86 : ℝ)) 50 :=
  ⟨by norm_num, arc_path_spec ((-3.7 : ℝ), (40.42 : ℝ)) ((2.35 : ℝ), (48.86 : ℝ)) 50 (by norm_num)⟩

end RouteAnimator
